import Mathlib

/-!
# Verification of the OctoPrint-Pushover notification plugin

Shallow embedding of the plugin's core logic, translated from the Python
sources:

* `octoprint_pushover/pushover.py` — the Pushover notification client
  (`Pushover.validate`, `Pushover.send_message`, `Pushover._request_body`,
  the `Priority` enum and the `PushoverError` factory constructors).
* `octoprint_pushover/print_state.py` — the `PrintState` session tracker.
* `octoprint_pushover/__init__.py` — the legacy plugin class that is the one
  actually registered by `__plugin_load__` (its `PrintStarted`, `PrintDone`,
  `PrintFailed`, `ZChange` handlers, the `on_event` dispatch policy,
  `get_mins_since_started`, `temp_check` and `validate_pushover`).
* `octoprint_pushover/plugin.py` — the refactored plugin class
  (its `temp_check` is line-for-line the same latch logic as the legacy one).

Modelling conventions: wall-clock times are whole seconds (`Nat`);
temperatures and Z heights are exact rationals (`ℚ`); Python dicts are
association lists with overwrite-in-place assignment semantics; the outcome
of an HTTP `post` is an oracle value (`PostResult`) passed to the function,
since the network is outside the program.
-/

deriving instance DecidableEq for Except

namespace OctoPushover

/-! ## JSON values, decoded bodies and form data -/

/-- A JSON / form value: the plugin only ever stores strings and integers. -/
inductive JVal : Type
  | str (s : String)
  | num (n : Int)
  deriving DecidableEq, Repr

/-- A decoded JSON object (or a Python dict of form fields), as an
association list in insertion order. -/
abbrev JObj := List (String × JVal)

/-- Python-dict key lookup (`d[k]` / `d.get(k)`): the value at the first
entry whose key matches. -/
def JObj.get? : JObj → String → Option JVal
  | [], _ => none
  | (k0, v0) :: rest, k => if k0 = k then some v0 else get? rest k

/-- Python-dict assignment `d[k] = v`: overwrite in place when the key is
present (keys are unique, every dict here is built from `[]` by `dset`),
append otherwise. -/
def dset : JObj → String → JVal → JObj
  | [], k, v => [(k, v)]
  | (k0, v0) :: rest, k, v =>
    if k0 = k then (k, v) :: rest else (k0, v0) :: dset rest k v

/-- Conditional assignment: models the `if x is not None: data[k] = f(x)`
pattern of `send_message`. -/
def set_opt (d : JObj) (k : String) (o : Option JVal) : JObj :=
  match o with
  | some v => dset d k v
  | none => d

/-! ## The Pushover client (`pushover.py`) -/

/-- `Priority(IntEnum)` from `pushover.py`: LOWEST=-2, LOW=-1, NORMAL=0,
HIGH=1, EMERGENCY=2. -/
inductive Priority : Type
  | lowest | low | normal | high | emergency
  deriving DecidableEq, Repr

/-- The integer value of a priority (`int(priority)`). -/
def Priority.toInt : Priority → Int
  | .lowest => -2
  | .low => -1
  | .normal => 0
  | .high => 1
  | .emergency => 2

/-- `Attachment` dataclass: binary data plus a mime type. Bytes are
modelled as a list of naturals. -/
structure Attachment where
  data : List Nat
  mimetype : String
  deriving DecidableEq, Repr

/-- The `PushoverError` factory constructors from `pushover.py`.  The spec
names them: `request_fail` = TransportError, `status_code` = ProtocolError,
`parse_fail` = ParseError, `request_reject` = RequestRejected. -/
inductive PushoverErr : Type
  | request_fail
  | status_code (code : Nat)
  | parse_fail
  | request_reject (code : Nat)
  deriving DecidableEq, Repr

/-- `MessageResponse` dataclass: optional receipt id and the request id. -/
structure MessageResponse where
  receipt : Option JVal
  request : JVal
  deriving DecidableEq, Repr

/-- An HTTP response as the client observes it: a status code and, when the
body decodes as JSON, the decoded object (`none` models a body on which
`response.json()` raises `JSONDecodeError`). -/
structure HttpResponse where
  status_code : Nat
  jsonBody : Option JObj
  deriving DecidableEq, Repr

/-- The outcome of `requests.post`: either a `RequestException` (network
failure, `exn`) or a response. -/
inductive PostResult : Type
  | exn
  | ok (r : HttpResponse)
  deriving DecidableEq, Repr

/-- The `Pushover` client object: an application token and a user key.
(The `timeout` constructor argument, default 10 s, only bounds the blocking
`post` call and carries no logic, so it is not modelled.) -/
structure Pushover where
  token : String
  user : String
  deriving DecidableEq, Repr

/-- `Pushover.BASE_URL`. -/
def BASE_URL : String := "https://api.pushover.net/1"

/-- The URL `Pushover.validate` posts to: `f"{self.BASE_URL}/validate.json"`. -/
def validate_url : String := BASE_URL ++ "/validate.json"

/-- The URL `Pushover.send_message` posts to. -/
def messages_url : String := BASE_URL ++ "/messages.json"

/-- `Pushover._request_body`: copy the given dict (or start empty) and set
`token` and `user`. -/
def Pushover.request_body (p : Pushover) (d : Option JObj) : JObj :=
  dset (dset (d.getD []) "token" (.str p.token)) "user" (.str p.user)

/-- `Pushover.validate`, as a function of the oracle `post` outcome.
The posted form is `p.request_body none` (see `validate_endpoint_mapping`);
a `RequestException` becomes `request_fail`; any status other than 200
becomes `status_code`; a 200 body that does not decode, or decodes without
a `status` key, becomes `parse_fail`; otherwise the result is the boolean
`body["status"] == "1"`. -/
def Pushover.validate (_p : Pushover) (pr : PostResult) : Except PushoverErr Bool :=
  match pr with
  | .exn => .error .request_fail
  | .ok r =>
    if r.status_code ≠ 200 then .error (.status_code r.status_code)
    else
      match r.jsonBody with
      | none => .error .parse_fail
      | some obj =>
        match obj.get? "status" with
        | none => .error .parse_fail
        | some v => .ok (v == .str "1")

/-- The keyword arguments of `Pushover.send_message`, with the source's
defaults.  A `datetime` timestamp is modelled by its epoch seconds. -/
structure SendArgs where
  message : String
  title : Option String := none
  url : Option String := none
  url_title : Option String := none
  attachment : Option Attachment := none
  device : Option String := none
  html : Bool := false
  priority : Priority := .normal
  sound : Option String := none
  timestamp : Option Int := none
  ttl : Option Int := none
  deriving DecidableEq, Repr

/-- The form dict `data` built by `Pushover.send_message` (lines 166-197 of
`pushover.py`), exactly in source order: `_request_body({"message": ...})`,
then `title`, `url` (with `url_title` only inside the `url` branch),
`attachment_type`, `device`, `html` = "1", `priority` (only when not
NORMAL, as `int(priority)`), `sound`, `timestamp`, `ttl`. -/
def Pushover.send_message_data (p : Pushover) (a : SendArgs) : JObj :=
  let d := p.request_body (some [("message", .str a.message)])
  let d := set_opt d "title" (a.title.map .str)
  let d := match a.url with
    | some u => set_opt (dset d "url" (.str u)) "url_title" (a.url_title.map .str)
    | none => d
  let d := match a.attachment with
    | some att => dset d "attachment_type" (.str att.mimetype)
    | none => d
  let d := set_opt d "device" (a.device.map .str)
  let d := if a.html then dset d "html" (.str "1") else d
  let d := if a.priority ≠ Priority.normal then dset d "priority" (.num a.priority.toInt) else d
  let d := set_opt d "sound" (a.sound.map .str)
  let d := set_opt d "timestamp" (a.timestamp.map .num)
  let d := set_opt d "ttl" (a.ttl.map .num)
  d

/-- The multipart `files` argument of `Pushover.send_message`: the raw
attachment bytes when an attachment is given, `None` otherwise. -/
def Pushover.send_message_files (a : SendArgs) : Option (List (String × List Nat)) :=
  a.attachment.map (fun att => [("attachment", att.data)])

/-- `Pushover.send_message` result handling (lines 199-219 of
`pushover.py`), as a function of the oracle `post` outcome: a
`RequestException` becomes `request_fail`; a status in `range(400, 500)`
becomes `request_reject`; any other status ≠ 200 becomes `status_code`;
a 200 body that does not decode, or decodes without a `request` key,
becomes `parse_fail`; otherwise the result is
`MessageResponse(payload.get("receipt", None), payload["request"])`. -/
def Pushover.send_message (p : Pushover) (a : SendArgs) (pr : PostResult) :
    Except PushoverErr MessageResponse :=
  let _data := p.send_message_data a
  let _files := Pushover.send_message_files a
  match pr with
  | .exn => .error .request_fail
  | .ok r =>
    if 400 ≤ r.status_code ∧ r.status_code < 500 then .error (.request_reject r.status_code)
    else if r.status_code ≠ 200 then .error (.status_code r.status_code)
    else
      match r.jsonBody with
      | none => .error .parse_fail
      | some payload =>
        match payload.get? "request" with
        | none => .error .parse_fail
        | some req => .ok ⟨payload.get? "receipt", req⟩

/-! ## The legacy plugin's validation (`__init__.py`) -/

/-- `PushoverPlugin.api_url` from `__init__.py`. -/
def api_url : String := "https://api.pushover.net/1"

/-- The URL `PushoverPlugin.validate_pushover` posts to:
`self.api_url + "/users/validate.json"`. -/
def legacy_validate_url : String := api_url ++ "/users/validate.json"

/-! ## Rounding helpers

Python's `round` rounds to the nearest integer with ties to even. Both
`minutes_since_started` (print_state.py) and `get_mins_since_started`
(`__init__.py`) compute `int(round(delta_seconds / 60))`; with the clock in
whole seconds this is `round_div seconds 60`. -/

/-- Round `n / d` to the nearest natural, ties to even (Python `round`). -/
def round_div (n d : Nat) : Nat :=
  if 2 * (n % d) < d then n / d
  else if d < 2 * (n % d) then n / d + 1
  else if n / d % 2 = 0 then n / d else n / d + 1

/-- Python `round(x)` on an exact rational, ties to even; used for the
`round(temps[...]["actual"])` readings in `temp_check`. -/
def py_round (x : ℚ) : ℤ :=
  if x - x.floor < 1 / 2 then x.floor
  else if (1 : ℚ) / 2 < x - x.floor then x.floor + 1
  else if x.floor % 2 = 0 then x.floor else x.floor + 1

/-! ## The session tracker `PrintState` (`print_state.py`) -/

/-- `PrintState.__init__` field values (the `plugin` back-reference carries
no state and is not modelled).  `start_time` is wall-clock seconds. -/
structure PrintState where
  is_printing : Bool := false
  last_minute : Nat := 0
  last_progress : Nat := 0
  start_time : Option Nat := none
  m70_cmd : String := ""
  first_layer : Bool := true
  deriving DecidableEq, Repr

/-- The payload of a Z-change event: `payload["new"]` and `payload["old"]`
(the latter is `None` at the very first reported height). -/
structure ZPayload where
  new : ℚ
  old : Option ℚ
  deriving DecidableEq, Repr

/-- `PrintState.on_print_done`. -/
def PrintState.on_print_done (s : PrintState) : PrintState :=
  { s with is_printing := false, last_minute := 0, last_progress := 0, start_time := none }

/-- `PrintState.on_print_failed`. -/
def PrintState.on_print_failed (s : PrintState) : PrintState :=
  { s with is_printing := false }

/-- `PrintState.on_print_z_change`: return unchanged when
`payload["new"] < 2 or payload["old"] is None`, otherwise clear
`first_layer`. -/
def PrintState.on_print_z_change (s : PrintState) (p : ZPayload) : PrintState :=
  if p.new < 2 ∨ p.old = none then s else { s with first_layer := false }

/-- `PrintState.minutes_since_started` at clock time `now` (seconds):
`None` when `start_time` is `None`, otherwise
`int(round(delta.total_seconds() / 60))`. -/
def PrintState.minutes_since_started (s : PrintState) (now : Nat) : Option Nat :=
  match s.start_time with
  | none => none
  | some t => some (round_div (now - t) 60)

/-! ## The legacy plugin state machine (`__init__.py`)

`__plugin_load__` instantiates the `PushoverPlugin` class defined in
`__init__.py`, so this class — not the refactored one in `plugin.py` — is
the code that runs.  Its session state lives in class attributes
(lines 44-53). -/

/-- The mutable session fields of the legacy `PushoverPlugin`, with their
class-attribute initial values. -/
structure PluginState where
  m70_cmd : String := ""
  printing : Bool := false
  start_time : Option Nat := none
  last_minute : Nat := 0
  last_progress : Nat := 0
  first_layer : Bool := false
  bed_sent : Bool := false
  e1_sent : Bool := false
  deriving DecidableEq, Repr

/-- The plugin state before any event: the class-attribute defaults. -/
def initPluginState : PluginState := {}

/-- State effect of the `PrintStarted` handler (lines 334-339): sets
`printing`, `start_time = now`, clears `m70_cmd`, resets both temperature
latches and raises the first-layer flag. -/
def PluginState.print_started (s : PluginState) (now : Nat) : PluginState :=
  { s with printing := true, start_time := some now, m70_cmd := "",
           bed_sent := false, e1_sent := false, first_layer := true }

/-- State effect of the `PrintDone` handler (lines 264-267). -/
def PluginState.print_done (s : PluginState) : PluginState :=
  { s with printing := false, last_minute := 0, last_progress := 0, start_time := none }

/-- State effect of the `PrintFailed` handler (line 284): only `printing`
is cleared. -/
def PluginState.print_failed (s : PluginState) : PluginState :=
  { s with printing := false }

/-- The `ZChange` handler (lines 347-369): returns early — leaving the
state unchanged and producing no message — unless the user has their own
token, a print is running, the first-layer flag is still up, and the
payload has `new >= 2` with `old` set; otherwise it clears `first_layer`
and returns the configured message (modelled as the boolean `true`). -/
def PluginState.z_change (s : PluginState) (has_own_token : Bool) (p : ZPayload) :
    PluginState × Bool :=
  if ¬has_own_token then (s, false)
  else if ¬s.printing then (s, false)
  else if ¬s.first_layer then (s, false)
  else if p.new < 2 ∨ p.old = none then (s, false)
  else ({ s with first_layer := false }, true)

/-- A Z payload qualifies as a real layer change when `new >= 2` and `old`
is set — the negation of the handler's early-return test. -/
def z_qualifies (p : ZPayload) : Bool :=
  decide (2 ≤ p.new) && p.old.isSome

/-- Folding the `ZChange` state effect over a list of payloads. -/
def z_run (has_own_token : Bool) (ps : List ZPayload) (s : PluginState) : PluginState :=
  ps.foldl (fun s p => (s.z_change has_own_token p).1) s

/-- The `on_event` dispatch policy applied to `ZChange` (lines 151-184):
the message returned by the handler is dropped — no notification is queued
— unless the configured priority for the event is truthy (non-zero).
Returns the new state and whether a notification was queued. -/
def z_change_event (s : PluginState) (has_own_token : Bool) (priority : Int)
    (p : ZPayload) : PluginState × Bool :=
  ((s.z_change has_own_token p).1,
    (s.z_change has_own_token p).2 && decide (priority ≠ 0))

/-- `get_mins_since_started` (lines 829-835 of `__init__.py`): `None`
unless `start_time` is set (a set `datetime` is always truthy), otherwise
`int(round(delta.total_seconds() / 60, 0))`. -/
def PluginState.get_mins_since_started (s : PluginState) (now : Nat) : Option Nat :=
  match s.start_time with
  | none => none
  | some t => some (round_div (now - t) 60)

/-! ## The periodic temperature poller (`temp_check`)

Embedded from `plugin.py` lines 662-698; the legacy copy in `__init__.py`
lines 790-827 is the same logic on the same `bed_sent` / `e1_sent`
class-attribute latches. -/

/-- One sensor reading as reported by
`self._printer.get_current_temperatures()`: the raw `actual` and `target`
values. -/
structure SensorInput where
  actual : ℚ
  target : ℚ
  deriving DecidableEq, Repr

/-- The temperatures dict for one tick: each key may be absent. -/
structure Temps where
  bed : Option SensorInput := none
  tool0 : Option SensorInput := none
  deriving DecidableEq, Repr

/-- The environment a `temp_check` tick runs in: whether the user has
their own token, whether the printer is operational, and the truthiness of
the `events.TempReached.priority` setting. -/
structure TempCfg where
  has_own_token : Bool
  operational : Bool
  temp_priority : Bool
  deriving DecidableEq, Repr

/-- Which sensor a TempReached notification was fired for. -/
inductive Sensor : Type
  | bed | tool
  deriving DecidableEq, Repr

/-- One `temp_check` tick: after the three guards, reads
`bed_temp = round(actual)` (0 when the key is absent) and the un-rounded
`bed_target` (0 when absent), likewise for `tool0`; each sensor fires — and
latches — when its target is positive, the reading has reached it, and its
latch is still down.  Returns the new state and the notifications sent this
tick, in source order (bed first). -/
def temp_check (cfg : TempCfg) (t : Temps) (s : PluginState) : PluginState × List Sensor :=
  if ¬cfg.has_own_token then (s, [])
  else if ¬cfg.operational then (s, [])
  else if ¬cfg.temp_priority then (s, [])
  else
    let bed_temp : ℤ := match t.bed with | some r => py_round r.actual | none => 0
    let bed_target : ℚ := match t.bed with | some r => r.target | none => 0
    let e1_temp : ℤ := match t.tool0 with | some r => py_round r.actual | none => 0
    let e1_target : ℚ := match t.tool0 with | some r => r.target | none => 0
    let step1 : PluginState × List Sensor :=
      if 0 < bed_target ∧ bed_target ≤ (bed_temp : ℚ) ∧ s.bed_sent = false then
        ({ s with bed_sent := true }, [Sensor.bed])
      else (s, [])
    if 0 < e1_target ∧ e1_target ≤ (e1_temp : ℚ) ∧ step1.1.e1_sent = false then
      ({ step1.1 with e1_sent := true }, step1.2 ++ [Sensor.tool])
    else (step1.1, step1.2)

/-- A sequence of poller ticks, each under its own environment and
temperature reading; collects every notification fired. -/
def temp_run (ticks : List (TempCfg × Temps)) (s : PluginState) : PluginState × List Sensor :=
  match ticks with
  | [] => (s, [])
  | (cfg, t) :: rest =>
    let step := temp_check cfg t s
    let next := temp_run rest step.1
    (next.1, step.2 ++ next.2)

/-! ## Concrete instances used by witnesses -/

/-- The client of the spec's end-to-end example: token "abc", user "xyz". -/
def pushoverEx : Pushover := ⟨"abc", "xyz"⟩

/-- A minimal `send_message` call, all keyword arguments at their defaults. -/
def argsEx : SendArgs := { message := "Print Job Started" }

/-! # Theorems

## Dictionary lemmas -/

theorem get?_dset (d : JObj) (k k' : String) (v : JVal) :
    (dset d k' v).get? k = if k' = k then some v else d.get? k := by
  induction d with
  | nil => simp [dset, JObj.get?]
  | cons hd tl ih =>
    obtain ⟨k0, v0⟩ := hd
    by_cases h0 : k0 = k' <;> by_cases h1 : k' = k <;> by_cases h2 : k0 = k <;>
      simp_all [dset, JObj.get?]

theorem get?_dset_eq (d : JObj) (k : String) (v : JVal) :
    (dset d k v).get? k = some v := by
  simp [get?_dset]

theorem get?_dset_ne {d : JObj} {k k' : String} {v : JVal}
    (h : k' ≠ k) : (dset d k' v).get? k = d.get? k := by
  simp [get?_dset, h]

theorem get?_set_opt_ne {d : JObj} {k k' : String} {o : Option JVal}
    (h : k' ≠ k) : (set_opt d k' o).get? k = d.get? k := by
  cases o with
  | none => rfl
  | some v => exact get?_dset_ne h

/-! ## C2 — the priority form field -/

/-- C2: for every call of `send_message`, the outgoing form data has no
"priority" key when the priority argument is NORMAL, and for any other
priority it maps "priority" to that priority's integer value. -/
theorem send_message_priority_field (p : Pushover) (a : SendArgs) :
    (p.send_message_data a).get? "priority" =
      if a.priority = Priority.normal then none
      else some (.num a.priority.toInt) := by
  simp only [Pushover.send_message_data]
  rw [get?_set_opt_ne (by decide), get?_set_opt_ne (by decide), get?_set_opt_ne (by decide)]
  by_cases hp : a.priority = Priority.normal
  · rw [if_neg (by simp [hp]), if_pos hp]
    have hbase : (p.request_body (some [("message", .str a.message)])).get? "priority" = none := by
      simp only [Pushover.request_body]
      rw [get?_dset_ne (by decide), get?_dset_ne (by decide)]
      rfl
    by_cases hh : a.html <;>
      cases hatt : a.attachment <;>
      cases hu : a.url <;>
      simp only [hh, if_true, if_false, Bool.false_eq_true] <;>
      first
      | (rw [get?_dset_ne (by decide)]
         rw [get?_set_opt_ne (by decide)]
         first
         | (rw [get?_dset_ne (by decide)]
            first
            | (rw [get?_set_opt_ne (by decide), get?_dset_ne (by decide),
                   get?_set_opt_ne (by decide)]; exact hbase)
            | (rw [get?_set_opt_ne (by decide)]; exact hbase))
         | (first
            | (rw [get?_set_opt_ne (by decide), get?_dset_ne (by decide),
                   get?_set_opt_ne (by decide)]; exact hbase)
            | (rw [get?_set_opt_ne (by decide)]; exact hbase)))
      | (rw [get?_set_opt_ne (by decide)]
         first
         | (rw [get?_dset_ne (by decide)]
            first
            | (rw [get?_set_opt_ne (by decide), get?_dset_ne (by decide),
                   get?_set_opt_ne (by decide)]; exact hbase)
            | (rw [get?_set_opt_ne (by decide)]; exact hbase))
         | (first
            | (rw [get?_set_opt_ne (by decide), get?_dset_ne (by decide),
                   get?_set_opt_ne (by decide)]; exact hbase)
            | (rw [get?_set_opt_ne (by decide)]; exact hbase)))
  · rw [if_pos hp, get?_dset_eq, if_neg hp]

/-! ## C1 — error mapping of `validate` and `send_message` -/

/-- C1 (counterexample): the claim maps a 401 response to `request_reject`
(RequestRejected) for `validate` as well, but `Pushover.validate` has no
4xx branch: at status 401 it raises the `status_code` error
(ProtocolError), not `request_reject`. -/
theorem validate_401_not_rejected :
    pushoverEx.validate (.ok ⟨401, none⟩) = .error (.status_code 401) ∧
    pushoverEx.validate (.ok ⟨401, none⟩) ≠ .error (.request_reject 401) := by
  exact ⟨rfl, by decide⟩

/-- C1 (amended): a network failure raises `request_fail` (TransportError)
in both operations; `send_message` maps any 4xx status to `request_reject`
(RequestRejected) and any other non-200 status to `status_code`
(ProtocolError), while `validate` maps every non-200 status — 4xx included
— to `status_code`; for both, a 200 response whose body does not decode as
JSON, or decodes without the required field (`status` for `validate`,
`request` for `send_message`), raises `parse_fail` (ParseError). -/
theorem pushover_error_mapping (p : Pushover) (a : SendArgs) (s : Nat)
    (b : Option JObj) (obj : JObj) :
    (p.validate .exn = .error .request_fail) ∧
    (p.send_message a .exn = .error .request_fail) ∧
    (s ≠ 200 → p.validate (.ok ⟨s, b⟩) = .error (.status_code s)) ∧
    (400 ≤ s → s < 500 → p.send_message a (.ok ⟨s, b⟩) = .error (.request_reject s)) ∧
    (s ≠ 200 → ¬(400 ≤ s ∧ s < 500) →
      p.send_message a (.ok ⟨s, b⟩) = .error (.status_code s)) ∧
    (p.validate (.ok ⟨200, none⟩) = .error .parse_fail) ∧
    (p.send_message a (.ok ⟨200, none⟩) = .error .parse_fail) ∧
    (obj.get? "status" = none → p.validate (.ok ⟨200, some obj⟩) = .error .parse_fail) ∧
    (obj.get? "request" = none →
      p.send_message a (.ok ⟨200, some obj⟩) = .error .parse_fail) := by
  refine ⟨rfl, rfl, ?_, ?_, ?_, rfl, rfl, ?_, ?_⟩
  · intro hs
    simp [Pushover.validate, hs]
  · intro h4 h5
    simp [Pushover.send_message, h4, h5]
  · intro hs h45
    simp only [Pushover.send_message]
    rw [if_neg h45, if_pos hs]
  · intro hst
    simp [Pushover.validate, hst]
  · intro hrq
    simp [Pushover.send_message, hrq]

/-- C1 (witness): the amended mapping at concrete inputs — 401 is rejected
by `send_message` but is a protocol error for `validate`, 500 is a
protocol error for `send_message`, and a 200 body without the required
field is a parse failure. -/
theorem pushover_error_mapping_witness :
    pushoverEx.send_message argsEx (.ok ⟨401, none⟩) = .error (.request_reject 401) ∧
    pushoverEx.validate (.ok ⟨401, none⟩) = .error (.status_code 401) ∧
    pushoverEx.send_message argsEx (.ok ⟨500, none⟩) = .error (.status_code 500) ∧
    pushoverEx.validate (.ok ⟨200, some [("x", .num 0)]⟩) = .error .parse_fail :=
  ⟨(pushover_error_mapping pushoverEx argsEx 401 none []).2.2.2.1 (by decide) (by decide),
   (pushover_error_mapping pushoverEx argsEx 401 none []).2.2.1 (by decide),
   (pushover_error_mapping pushoverEx argsEx 500 none []).2.2.2.2.1 (by decide) (by decide),
   (pushover_error_mapping pushoverEx argsEx 200 none [("x", .num 0)]).2.2.2.2.2.2.2.1 (by decide)⟩

/-! ## C10 — the receipt field is independent of the priority -/

/-- C10: on a 200 response whose body decodes and has a `request` field,
`send_message` returns `receipt = payload.get("receipt")` (and the request
id), whatever the arguments — in particular whatever the priority — were. -/
theorem send_message_receipt (p : Pushover) (a : SendArgs) (payload : JObj)
    (req : JVal) (h : payload.get? "request" = some req) :
    p.send_message a (.ok ⟨200, some payload⟩) = .ok ⟨payload.get? "receipt", req⟩ := by
  simp [Pushover.send_message, h]

/-- C10 (witness): a non-emergency (NORMAL-priority) request whose
response body carries a `receipt` field still yields that receipt. -/
theorem send_message_receipt_witness :
    (JObj.get? [("request", JVal.str "r1"), ("receipt", JVal.str "rc")] "request"
        = some (.str "r1")) ∧
    pushoverEx.send_message { message := "m", priority := .normal }
        (.ok ⟨200, some [("request", .str "r1"), ("receipt", .str "rc")]⟩)
      = .ok ⟨some (.str "rc"), .str "r1"⟩ :=
  ⟨by decide,
   (send_message_receipt pushoverEx { message := "m", priority := .normal }
      [("request", .str "r1"), ("receipt", .str "rc")] (.str "r1") (by decide)).trans
     (by decide)⟩

/-! ## C5 — the validation endpoint -/

/-- C5: the credential validation of the notification client posts the
form fields `token` and `user` and returns true exactly when the decoded
`status` field equals the string "1"; but it posts to
`/1/validate.json`, not to the documented `/1/users/validate.json` — the
endpoint the legacy `validate_pushover` in `__init__.py` uses. -/
theorem validate_endpoint_mapping :
    validate_url = "https://api.pushover.net/1/validate.json" ∧
    validate_url ≠ "https://api.pushover.net/1/users/validate.json" ∧
    legacy_validate_url = "https://api.pushover.net/1/users/validate.json" ∧
    Pushover.request_body pushoverEx none = [("token", .str "abc"), ("user", .str "xyz")] ∧
    (∀ v : JVal,
      pushoverEx.validate (.ok ⟨200, some [("status", v)]⟩) = .ok (v == .str "1")) :=
  ⟨rfl, by decide, rfl, rfl, fun v => rfl⟩

/-! ## C6 — state after `PrintStarted` -/

/-- C6: after every `PrintStarted` signal the session state has
`printing = true`, `start_time = now`, an empty command buffer, both
temperature latches down and the first-layer flag up. -/
theorem print_started_state (s : PluginState) (now : Nat) :
    (s.print_started now).printing = true ∧
    (s.print_started now).start_time = some now ∧
    (s.print_started now).m70_cmd = "" ∧
    (s.print_started now).bed_sent = false ∧
    (s.print_started now).e1_sent = false ∧
    (s.print_started now).first_layer = true :=
  ⟨rfl, rfl, rfl, rfl, rfl, rfl⟩

/-! ## C7 — frame conditions of `on_print_done` / `on_print_failed` -/

/-- C7: `PrintState.on_print_failed` clears `is_printing` and changes
nothing else; `PrintState.on_print_done` clears `is_printing` and
additionally resets `last_minute`, `last_progress` and `start_time`
(leaving the command buffer and the first-layer flag alone). -/
theorem print_done_failed_frame (s : PrintState) :
    s.on_print_failed.is_printing = false ∧
    s.on_print_failed.start_time = s.start_time ∧
    s.on_print_failed.last_minute = s.last_minute ∧
    s.on_print_failed.last_progress = s.last_progress ∧
    s.on_print_failed.m70_cmd = s.m70_cmd ∧
    s.on_print_failed.first_layer = s.first_layer ∧
    s.on_print_done.is_printing = false ∧
    s.on_print_done.last_minute = 0 ∧
    s.on_print_done.last_progress = 0 ∧
    s.on_print_done.start_time = none ∧
    s.on_print_done.m70_cmd = s.m70_cmd ∧
    s.on_print_done.first_layer = s.first_layer :=
  ⟨rfl, rfl, rfl, rfl, rfl, rfl, rfl, rfl, rfl, rfl, rfl, rfl⟩

/-! ## C3 — the temperature latches -/

/-- Remaining notification budget of the bed latch: one until the latch is
set, zero after. -/
def bed_budget (s : PluginState) : Nat := if s.bed_sent then 0 else 1

/-- Remaining notification budget of the tool latch. -/
def e1_budget (s : PluginState) : Nat := if s.e1_sent then 0 else 1

theorem temp_check_bed (cfg : TempCfg) (t : Temps) (s : PluginState) :
    (temp_check cfg t s).2.count Sensor.bed + bed_budget (temp_check cfg t s).1
      = bed_budget s := by
  simp only [temp_check]
  split_ifs <;>
    simp_all [bed_budget, List.count_cons, List.count_append, List.count_nil]

theorem temp_check_e1 (cfg : TempCfg) (t : Temps) (s : PluginState) :
    (temp_check cfg t s).2.count Sensor.tool + e1_budget (temp_check cfg t s).1
      = e1_budget s := by
  simp only [temp_check]
  split_ifs <;>
    simp_all [e1_budget, List.count_cons, List.count_append, List.count_nil]

theorem temp_run_bed (ticks : List (TempCfg × Temps)) (s : PluginState) :
    (temp_run ticks s).2.count Sensor.bed + bed_budget (temp_run ticks s).1
      = bed_budget s := by
  induction ticks generalizing s with
  | nil => simp [temp_run]
  | cons tk rest ih =>
    obtain ⟨cfg, t⟩ := tk
    simp only [temp_run, List.count_append]
    have h1 := temp_check_bed cfg t s
    have h2 := ih (temp_check cfg t s).1
    omega

theorem temp_run_e1 (ticks : List (TempCfg × Temps)) (s : PluginState) :
    (temp_run ticks s).2.count Sensor.tool + e1_budget (temp_run ticks s).1
      = e1_budget s := by
  induction ticks generalizing s with
  | nil => simp [temp_run]
  | cons tk rest ih =>
    obtain ⟨cfg, t⟩ := tk
    simp only [temp_run, List.count_append]
    have h1 := temp_check_e1 cfg t s
    have h2 := ih (temp_check cfg t s).1
    omega

theorem sensor_list_length (l : List Sensor) :
    l.length = l.count Sensor.bed + l.count Sensor.tool := by
  induction l with
  | nil => rfl
  | cons hd tl ih =>
    cases hd <;> simp [List.count_cons, ih] <;> omega

/-- C3: starting from the state a `PrintStarted` event leaves (both
latches down), any sequence of poller ticks fires at most one bed and one
tool notification — at most two in total; a set latch survives any tick;
`PrintDone`, `PrintFailed` and `ZChange` never touch the latches, only a
new `PrintStarted` resets them. -/
theorem temp_latch_once (ticks : List (TempCfg × Temps)) (s s' : PluginState)
    (now : Nat) (cfg : TempCfg) (t : Temps) (p : ZPayload) (hk : Bool) :
    (temp_run ticks (s.print_started now)).2.count Sensor.bed ≤ 1 ∧
    (temp_run ticks (s.print_started now)).2.count Sensor.tool ≤ 1 ∧
    (temp_run ticks (s.print_started now)).2.length ≤ 2 ∧
    (s.print_started now).bed_sent = false ∧
    (s.print_started now).e1_sent = false ∧
    (temp_check cfg t { s' with bed_sent := true }).1.bed_sent = true ∧
    (temp_check cfg t { s' with e1_sent := true }).1.e1_sent = true ∧
    s'.print_done.bed_sent = s'.bed_sent ∧ s'.print_done.e1_sent = s'.e1_sent ∧
    s'.print_failed.bed_sent = s'.bed_sent ∧ s'.print_failed.e1_sent = s'.e1_sent ∧
    (s'.z_change hk p).1.bed_sent = s'.bed_sent ∧
    (s'.z_change hk p).1.e1_sent = s'.e1_sent := by
  have hbed := temp_run_bed ticks (s.print_started now)
  have he1 := temp_run_e1 ticks (s.print_started now)
  have hb0 : bed_budget (s.print_started now) = 1 := rfl
  have he0 : e1_budget (s.print_started now) = 1 := rfl
  have hlen := sensor_list_length (temp_run ticks (s.print_started now)).2
  have hbset : bed_budget (temp_check cfg t { s' with bed_sent := true }).1 = 0 := by
    have := temp_check_bed cfg t { s' with bed_sent := true }
    have : bed_budget (temp_check cfg t { s' with bed_sent := true }).1
        ≤ bed_budget { s' with bed_sent := true } := by omega
    simpa [bed_budget] using this
  have heset : e1_budget (temp_check cfg t { s' with e1_sent := true }).1 = 0 := by
    have := temp_check_e1 cfg t { s' with e1_sent := true }
    have : e1_budget (temp_check cfg t { s' with e1_sent := true }).1
        ≤ e1_budget { s' with e1_sent := true } := by omega
    simpa [e1_budget] using this
  refine ⟨by omega, by omega, by omega, rfl, rfl, ?_, ?_, rfl, rfl, rfl, rfl, ?_, ?_⟩
  · by_contra hc
    simp only [Bool.not_eq_true] at hc
    simp [bed_budget, hc] at hbset
  · by_contra hc
    simp only [Bool.not_eq_true] at hc
    simp [e1_budget, hc] at heset
  · unfold PluginState.z_change
    repeat' split
    all_goals rfl
  · unfold PluginState.z_change
    repeat' split
    all_goals rfl

/-! ## C4 — the first-layer flag -/

theorem z_change_printing (s : PluginState) (hk : Bool) (p : ZPayload) :
    (s.z_change hk p).1.printing = s.printing := by
  unfold PluginState.z_change
  repeat' split
  all_goals rfl

theorem z_change_not_first (s : PluginState) (hk : Bool) (p : ZPayload)
    (h : s.first_layer = false) : s.z_change hk p = (s, false) := by
  cases hk <;> cases hpr : s.printing <;> simp [PluginState.z_change, h, hpr]

theorem z_change_no_qual (s : PluginState) (hk : Bool) (p : ZPayload)
    (h : z_qualifies p = false) : s.z_change hk p = (s, false) := by
  have h' : p.new < 2 ∨ p.old = none := by
    by_cases hn : 2 ≤ p.new
    · right
      cases ho : p.old with
      | none => rfl
      | some x =>
        rw [z_qualifies] at h
        simp [hn, ho] at h
    · left
      exact not_le.mp hn
  cases hk <;> cases hpr : s.printing <;> cases hf : s.first_layer <;>
    simp [PluginState.z_change, hpr, hf, h']

theorem z_change_qual (s : PluginState) (p : ZPayload)
    (hq : z_qualifies p = true) (hpr : s.printing = true) (hf : s.first_layer = true) :
    s.z_change true p = ({ s with first_layer := false }, true) := by
  have h' : ¬(p.new < 2 ∨ p.old = none) := by
    simp only [z_qualifies, Bool.and_eq_true, decide_eq_true_eq, Option.isSome_iff_exists] at hq
    obtain ⟨h1, x, h2⟩ := hq
    push_neg
    exact ⟨h1, by simp [h2]⟩
  simp [PluginState.z_change, hpr, hf, h']

theorem z_run_flag (ps : List ZPayload) (s : PluginState) (h : s.printing = true) :
    (z_run true ps s).first_layer = (s.first_layer && !ps.any z_qualifies) := by
  induction ps generalizing s with
  | nil => simp [z_run]
  | cons p rest ih =>
    have hrun : z_run true (p :: rest) s = z_run true rest (s.z_change true p).1 := rfl
    have hpr : (s.z_change true p).1.printing = true := by
      rw [z_change_printing]; exact h
    rw [hrun, ih _ hpr]
    cases hf : s.first_layer with
    | false =>
      rw [z_change_not_first s true p hf]
      simp [hf]
    | true =>
      cases hq : z_qualifies p with
      | false =>
        rw [z_change_no_qual s true p hq]
        simp [hf, hq]
      | true =>
        rw [z_change_qual s p hq h hf]
        simp [hq]

/-- C4 (counterexample): right after `PrintStarted`, the very first
qualifying Z change (`new = 3 >= 2`, `old` set) does not clear the
first-layer flag when the user runs on the default token — `ZChange`
checks `has_own_token` before anything else, a condition absent from the
claim. -/
theorem z_first_layer_counterexample :
    z_qualifies ⟨3, some 1⟩ = true ∧
    (initPluginState.print_started 0).first_layer = true ∧
    PluginState.z_change (initPluginState.print_started 0) false ⟨3, some 1⟩
      = (initPluginState.print_started 0, false) :=
  ⟨by decide, rfl, by decide⟩

/-- C4 (amended): when the user has their own token, after `PrintStarted`
the first-layer flag along any sequence of Z changes equals "no qualifying
payload seen yet" — since this holds for every prefix, the flag goes down
exactly at the first call with `new >= 2` and `old` set and stays down;
and a `ZChange` received while no print is running (in particular before
any `PrintStarted`) leaves the state untouched and produces no message. -/
theorem z_first_layer_amended (s s' : PluginState) (now : Nat)
    (ps : List ZPayload) (hk : Bool) (p : ZPayload) :
    ((z_run true ps (s.print_started now)).first_layer = !ps.any z_qualifies) ∧
    (s'.printing = false → s'.z_change hk p = (s', false)) := by
  constructor
  · rw [z_run_flag ps _ rfl]
    rfl
  · intro h
    cases hk <;> simp [PluginState.z_change, h]

/-- C4 (witness): a session with a non-qualifying then a qualifying Z
change, and a Z change on the pristine (not-printing) state. -/
theorem z_first_layer_amended_witness :
    ((z_run true [⟨1, none⟩, ⟨3, some 1⟩] (initPluginState.print_started 0)).first_layer
      = !([⟨1, none⟩, ⟨3, some 1⟩] : List ZPayload).any z_qualifies) ∧
    PluginState.z_change initPluginState true ⟨3, some 1⟩ = (initPluginState, false) :=
  ⟨(z_first_layer_amended initPluginState initPluginState 0
      [⟨1, none⟩, ⟨3, some 1⟩] true ⟨3, some 1⟩).1,
   (z_first_layer_amended initPluginState initPluginState 0
      [⟨1, none⟩, ⟨3, some 1⟩] true ⟨3, some 1⟩).2 rfl⟩

/-! ## C8 — `ZChange` dispatch policy -/

theorem z_change_not_printing (s : PluginState) (hk : Bool) (p : ZPayload)
    (h : s.printing = false) : s.z_change hk p = (s, false) := by
  cases hk <;> simp [PluginState.z_change, h]

theorem z_change_msg_true (s : PluginState) (hk : Bool) (p : ZPayload)
    (h : (s.z_change hk p).2 = true) :
    s.printing = true ∧ s.first_layer = true ∧ (s.z_change hk p).1.first_layer = false := by
  cases hq : z_qualifies p with
  | false => rw [z_change_no_qual s hk p hq] at h; cases h
  | true =>
    cases hpr : s.printing with
    | false => rw [z_change_not_printing s hk p hpr] at h; cases h
    | true =>
      cases hf : s.first_layer with
      | false => rw [z_change_not_first s hk p hf] at h; cases h
      | true =>
        cases hk with
        | false => simp [PluginState.z_change] at h
        | true =>
          refine ⟨rfl, rfl, ?_⟩
          rw [z_change_qual s p hq hpr hf]

/-- C8: a `ZChange` notification is queued only if a print is running, the
configured priority is non-zero, and the state update really cleared the
first-layer flag (the flag was up before the event and is down after). -/
theorem z_dispatch_only_if (s : PluginState) (hk : Bool) (pri : Int) (p : ZPayload)
    (h : (z_change_event s hk pri p).2 = true) :
    s.printing = true ∧ pri ≠ 0 ∧ s.first_layer = true ∧
    (z_change_event s hk pri p).1.first_layer = false := by
  simp only [z_change_event, Bool.and_eq_true, decide_eq_true_eq] at h
  obtain ⟨hmsg, hpri⟩ := h
  obtain ⟨h1, h2, h3⟩ := z_change_msg_true s hk p hmsg
  exact ⟨h1, hpri, h2, h3⟩

/-- C8 (witness): with an own token, priority 1 and a qualifying payload
right after `PrintStarted`, a notification is queued and every condition
of the claim indeed holds. -/
theorem z_dispatch_only_if_witness :
    (z_change_event (initPluginState.print_started 0) true 1 ⟨3, some 1⟩).2 = true ∧
    ((initPluginState.print_started 0).printing = true ∧ (1 : Int) ≠ 0 ∧
      (initPluginState.print_started 0).first_layer = true ∧
      (z_change_event (initPluginState.print_started 0) true 1 ⟨3, some 1⟩).1.first_layer
        = false) :=
  ⟨by decide, z_dispatch_only_if (initPluginState.print_started 0) true 1 ⟨3, some 1⟩ (by decide)⟩

/-! ## C9 — minutes since the print started -/

theorem round_div_mono {n m : Nat} (h : n ≤ m) : round_div n 60 ≤ round_div m 60 := by
  unfold round_div
  split_ifs <;> omega

/-- C9 (counterexample): after `PrintStarted` followed by `PrintFailed`
the session is not printing, yet — `PrintFailed` leaves `start_time` set —
`get_mins_since_started` still returns a value (2 minutes at 120 s). -/
theorem mins_not_printing_counterexample :
    ((initPluginState.print_started 0).print_failed).printing = false ∧
    ((initPluginState.print_started 0).print_failed).get_mins_since_started 120 = some 2 :=
  ⟨rfl, rfl⟩

/-- C9 (amended): the elapsed-minutes value is unset exactly when
`start_time` is unset — which holds before any print and after
`PrintDone`, but not after `PrintFailed`, which keeps `start_time` — and
it is monotonically non-decreasing in the clock across successive calls;
likewise for the refactored `PrintState.minutes_since_started`. -/
theorem mins_since_started_amended (s : PluginState) (ps : PrintState)
    (now1 now2 : Nat) :
    (s.get_mins_since_started now1 = none ↔ s.start_time = none) ∧
    (now1 ≤ now2 →
      (s.get_mins_since_started now1).getD 0 ≤ (s.get_mins_since_started now2).getD 0) ∧
    (ps.minutes_since_started now1 = none ↔ ps.start_time = none) ∧
    (now1 ≤ now2 →
      (ps.minutes_since_started now1).getD 0 ≤ (ps.minutes_since_started now2).getD 0) := by
  refine ⟨?_, ?_, ?_, ?_⟩
  · cases hst : s.start_time <;> simp [PluginState.get_mins_since_started, hst]
  · intro h
    cases hst : s.start_time with
    | none => simp [PluginState.get_mins_since_started, hst]
    | some t =>
      simp only [PluginState.get_mins_since_started, hst, Option.getD_some]
      exact round_div_mono (Nat.sub_le_sub_right h t)
  · cases hst : ps.start_time <;> simp [PrintState.minutes_since_started, hst]
  · intro h
    cases hst : ps.start_time with
    | none => simp [PrintState.minutes_since_started, hst]
    | some t =>
      simp only [PrintState.minutes_since_started, hst, Option.getD_some]
      exact round_div_mono (Nat.sub_le_sub_right h t)

/-- C9 (witness): the amended statement at a started session observed at
30 s and 100 s. -/
theorem mins_since_started_amended_witness :
    ((initPluginState.print_started 0).get_mins_since_started 30 = none ↔
      (initPluginState.print_started 0).start_time = none) ∧
    ((initPluginState.print_started 0).get_mins_since_started 30).getD 0 ≤
      ((initPluginState.print_started 0).get_mins_since_started 100).getD 0 :=
  ⟨(mins_since_started_amended (initPluginState.print_started 0) {} 30 100).1,
   (mins_since_started_amended (initPluginState.print_started 0) {} 30 100).2.1 (by decide)⟩

end OctoPushover
